import Mathlib

/-!
Shallow embedding of the `wgpu-util` crate (file `src/lib.rs`; the crate root
declares no modules, so `buffer.rs` and `pool.rs` are uncompiled duplicates and
`lib.rs` is authoritative).

Device-side state is modelled explicitly: a `GpuState` carries a fresh-id
counter, the number of `create_buffer` calls performed (to count
(re)allocations), and the list of queued `write_buffer` operations.  A
`Buffer` is a handle with identity, capacity, byte contents, mapped flag,
usage flags and label.  `wgpu::BufferAddress` is `u64`; arithmetic that can
wrap in release builds (`+` in the padding computation, `.pow(2)` in
`reserve_function`) is taken modulo `2 ^ 64`.  Rust panics (assertion
failures, slice-range and `copy_from_slice` length panics) are modelled as
`Except.error` with the panic message.
-/

namespace WgpuUtil

/-- Modulus of `wgpu::BufferAddress = u64` arithmetic. -/
def U64_MOD : Nat := 2 ^ 64

/-- Alignment unit `wgpu::COPY_BUFFER_ALIGNMENT` mandated by the collaborator (4 bytes). -/
def COPY_BUFFER_ALIGNMENT : Nat := 4

/-- A `wgpu::Buffer` handle: identity, capacity in bytes, device-side byte
contents, mapped flag, usage bitset and debug label. -/
structure Buffer where
  id : Nat
  size : Nat
  data : List Nat
  mapped : Bool
  usage : Nat
  label : Option String
deriving Repr, DecidableEq

/-- One queued `queue.write_buffer(handle, offset, bytes)` operation. -/
structure QueueWrite where
  bufferId : Nat
  offset : Nat
  bytes : List Nat
deriving Repr, DecidableEq

/-- Device/queue collaborator state: fresh handle ids, number of buffer
allocations performed, queued host-to-device writes. -/
structure GpuState where
  nextId : Nat
  allocCount : Nat
  writes : List QueueWrite
deriving Repr, DecidableEq

/-- Models `wgpu::BufferDescriptor`. -/
structure BufferDescriptor where
  label : Option String
  size : Nat
  usage : Nat
  mapped_at_creation : Bool
deriving Repr, DecidableEq

/-- Models `wgpu_util::BufferInitDescriptor` (lib.rs:8-18): label, contents, optional
explicit size, usage flags. -/
structure BufferInitDescriptor where
  label : Option String
  contents : List Nat
  size : Option Nat
  usage : Nat
deriving Repr, DecidableEq

/-- Models `device.create_buffer(descriptor)`: allocates a fresh handle of the
requested size. -/
def GpuState.create_buffer (st : GpuState) (d : BufferDescriptor) : Buffer × GpuState :=
  (⟨st.nextId, d.size, List.replicate d.size 0, d.mapped_at_creation, d.usage, d.label⟩,
   { st with nextId := st.nextId + 1, allocCount := st.allocCount + 1 })

/-- Models `queue.write_buffer(handle, offset, bytes)`: enqueues a host-to-device copy. -/
def GpuState.write_buffer (st : GpuState) (bufId offset : Nat) (bytes : List Nat) : GpuState :=
  { st with writes := st.writes ++ [⟨bufId, offset, bytes⟩] }

/-- Message of the `assert!` at lib.rs:34-37. -/
def assertSizeMsg : String := "specified size must at least be size of contents"

/-- Panic message of `slice[0..unpadded_size]` when the range end exceeds the
mapped slice length (lib.rs:61). -/
def rangeMsg : String := "range end out of range"

/-- Panic message of `copy_from_slice` when source and destination lengths
differ (lib.rs:61). -/
def copyMsg : String := "source slice length does not match destination slice length"

/-- Body of `create_buffer_init` after `unpadded_size` is known (lib.rs:43-68).
Padding: `(unpadded_size + align_mask) & !align_mask`, clamped to at least
`COPY_BUFFER_ALIGNMENT`.  With `align_mask = 3`, masking off the two low bits
of `t` equals `t - t % 4`; the `u64` addition wraps modulo `2 ^ 64`.  Then the
buffer is allocated mapped, `contents` is copied via
`slice[0..unpadded_size].copy_from_slice(contents)` (range panic if
`unpadded_size` exceeds the capacity, length-mismatch panic if
`unpadded_size ≠ len(contents)`), the tail `[unpadded_size, padded_size)` is
zero-filled, and the buffer is unmapped. -/
def buildInitBuffer (st : GpuState) (descriptor : BufferInitDescriptor)
    (unpadded_size : Nat) : Except String (Buffer × GpuState) :=
  let t := (unpadded_size + (COPY_BUFFER_ALIGNMENT - 1)) % U64_MOD
  let padded_size := max (t - t % COPY_BUFFER_ALIGNMENT) COPY_BUFFER_ALIGNMENT
  let (buffer, st2) := st.create_buffer ⟨descriptor.label, padded_size, descriptor.usage, true⟩
  if padded_size < unpadded_size then .error rangeMsg
  else if unpadded_size ≠ descriptor.contents.length then .error copyMsg
  else
    let filled := descriptor.contents ++ List.replicate (padded_size - unpadded_size) 0
    .ok ({ buffer with data := filled, mapped := false }, st2)

/-- Models `DeviceExt::create_buffer_init` (lib.rs:28-69): computes `unpadded_size`
from the optional explicit size (asserting it is at least `len(contents)`),
then allocates, fills and unmaps via `buildInitBuffer`. -/
def create_buffer_init (st : GpuState) (descriptor : BufferInitDescriptor) :
    Except String (Buffer × GpuState) :=
  match descriptor.size with
  | none => buildInitBuffer st descriptor descriptor.contents.length
  | some specified_size =>
    if descriptor.contents.length ≤ specified_size then
      buildInitBuffer st descriptor specified_size
    else .error assertSizeMsg

/-- Models `SizedBuffer` (lib.rs:74-77): a handle paired with its recorded size. -/
structure SizedBuffer where
  size : Nat
  buffer : Buffer
deriving Repr, DecidableEq

/-- Models `SizedBuffer::new` (lib.rs:80-82). -/
def SizedBuffer.new (size : Nat) (buffer : Buffer) : SizedBuffer :=
  ⟨size, buffer⟩

/-- Models `BufferResizeWriteDescriptor` (lib.rs:85-89). -/
structure BufferResizeWriteDescriptor where
  label : Option String
  contents : List Nat
  usage : Nat
deriving Repr, DecidableEq

/-- Models `resize_write_buffer` (lib.rs:94-114): if the contents fit in the recorded
size, queue an in-place write at offset 0 and return the same `SizedBuffer`;
otherwise create a fresh buffer via `create_buffer_init` with no explicit size
and wrap it with recorded size `len(contents)`. -/
def resize_write_buffer (st : GpuState) (buffer : SizedBuffer)
    (descriptor : BufferResizeWriteDescriptor) : Except String (SizedBuffer × GpuState) :=
  let contents_size := descriptor.contents.length
  if contents_size ≤ buffer.size then
    .ok (buffer, st.write_buffer buffer.buffer.id 0 descriptor.contents)
  else
    match create_buffer_init st
        ⟨descriptor.label, descriptor.contents, none, descriptor.usage⟩ with
    | .error e => .error e
    | .ok (new, st2) => .ok (SizedBuffer.new contents_size new, st2)

/-- Models `DynamicBuffer` (lib.rs:118-124): owned raw handle, label, logical size,
usage flags. -/
structure DynamicBuffer where
  raw : Buffer
  label : Option String
  size : Nat
  usage : Nat
deriving Repr, DecidableEq

/-- Models `DynamicBuffer::RESERVE` (lib.rs:127). -/
def DynamicBuffer.RESERVE : Bool := true

/-- Models `reserve_function` (lib.rs:212-214): `last_size.pow(2)` in `u64`. -/
def reserve_function (last_size : Nat) : Nat :=
  last_size ^ 2 % U64_MOD

/-- Models `DynamicBuffer::new` (lib.rs:130-139). -/
def DynamicBuffer.new (st : GpuState) (descriptor : BufferDescriptor) :
    DynamicBuffer × GpuState :=
  let (raw, st2) := st.create_buffer descriptor
  (⟨raw, descriptor.label, descriptor.size, descriptor.usage⟩, st2)

/-- Models `DynamicBuffer::new_init` (lib.rs:142-158): creates the raw handle via
`create_buffer_init`, then records `len(contents)` as the logical size (the
shadowing plain descriptor built at lib.rs:145-150). -/
def DynamicBuffer.new_init (st : GpuState) (descriptor : BufferInitDescriptor) :
    Except String (DynamicBuffer × GpuState) :=
  match create_buffer_init st descriptor with
  | .error e => .error e
  | .ok (raw, st2) =>
      .ok (⟨raw, descriptor.label, descriptor.contents.length, descriptor.usage⟩, st2)

/-- Models `DynamicBuffer::try_upload` (lib.rs:172-185): queue-writes and shrinks the
logical size if `len(contents) < size` (strict), otherwise fails with the
difference `len(contents) - size`. -/
def DynamicBuffer.try_upload (b : DynamicBuffer) (st : GpuState) (contents : List Nat) :
    Except Nat Unit × DynamicBuffer × GpuState :=
  let contents_size := contents.length
  if contents_size < b.size then
    (.ok (), { b with size := contents_size }, st.write_buffer b.raw.id 0 contents)
  else
    (.error (contents_size - b.size), b, st)

/-- Models `DynamicBuffer::upload_by_init` (lib.rs:189-199): calls
`create_buffer_init` with explicit size `reserve_function(self.size)` (since
`RESERVE` is true).  The returned buffer is discarded: neither `self.raw` nor
`self.size` is assigned. -/
def DynamicBuffer.upload_by_init (b : DynamicBuffer) (st : GpuState) (contents : List Nat) :
    Except String (DynamicBuffer × GpuState) :=
  match create_buffer_init st
      ⟨b.label, contents,
       match DynamicBuffer.RESERVE with
       | true => some (reserve_function b.size)
       | false => none,
       b.usage⟩ with
  | .error e => .error e
  | .ok (_, st2) => .ok (b, st2)

/-- Models `DynamicBuffer::upload` (lib.rs:164-168): `try_upload`, falling back to
`upload_by_init` on failure. -/
def DynamicBuffer.upload (b : DynamicBuffer) (st : GpuState) (contents : List Nat) :
    Except String (DynamicBuffer × GpuState) :=
  match b.try_upload st contents with
  | (.ok _, b2, st2) => .ok (b2, st2)
  | (.error _, b2, st2) => b2.upload_by_init st2 contents

/-- Models `BufferPoolDescriptor` (lib.rs:314-319). -/
structure BufferPoolDescriptor where
  label : Option String
  usage : Nat
deriving Repr, DecidableEq

/-- Models `BufferPool` (lib.rs:218-224): slots, occupancy cursor, label, usage. -/
structure BufferPool where
  buffers : List SizedBuffer
  occupied : Nat
  label : Option String
  usage : Nat
deriving Repr, DecidableEq

/-- Models `BufferPool::new` (lib.rs:228-236). -/
def BufferPool.new (descriptor : BufferPoolDescriptor) : BufferPool :=
  ⟨[], 0, descriptor.label, descriptor.usage⟩

/-- Models `BufferPool::create_buffer` (lib.rs:302-310): fresh buffer via
`create_buffer_init` with no explicit size, recorded size `len(contents)`. -/
def BufferPool.create_buffer (p : BufferPool) (st : GpuState) (contents : List Nat) :
    Except String (SizedBuffer × GpuState) :=
  match create_buffer_init st ⟨p.label, contents, none, p.usage⟩ with
  | .error e => .error e
  | .ok (buffer, st2) => .ok (SizedBuffer.new contents.length buffer, st2)

/-- Models `BufferPool::upload` (lib.rs:242-269): reuse slot `occupied` via
`resize_write_buffer` when one is vacant, else append a fresh slot; increment
`occupied` and return its new (1-based) value. -/
def BufferPool.upload (p : BufferPool) (st : GpuState) (contents : List Nat) :
    Except String (Nat × BufferPool × GpuState) :=
  if h : p.occupied < p.buffers.length then
    match resize_write_buffer st (p.buffers.get ⟨p.occupied, h⟩)
        ⟨p.label, contents, p.usage⟩ with
    | .error e => .error e
    | .ok (newBuf, st2) =>
        .ok (p.occupied + 1,
             { p with buffers := p.buffers.set p.occupied newBuf,
                      occupied := p.occupied + 1 }, st2)
  else
    match p.create_buffer st contents with
    | .error e => .error e
    | .ok (slot, st2) =>
        .ok (p.occupied + 1,
             { p with buffers := p.buffers ++ [slot],
                      occupied := p.occupied + 1 }, st2)

/-- Models `BufferPool::clear` (lib.rs:272-274). -/
def BufferPool.clear (p : BufferPool) : BufferPool :=
  { p with occupied := 0 }

/-- Models `BufferPool::get` (lib.rs:277-283): a handle only for `i < occupied`. -/
def BufferPool.get (p : BufferPool) (i : Nat) : Option Buffer :=
  if i < p.occupied then (p.buffers.get? i).map (·.buffer) else none

/-- Models `BufferPool::get_any` (lib.rs:286-288). -/
def BufferPool.get_any (p : BufferPool) (i : Nat) : Option Buffer :=
  (p.buffers.get? i).map (·.buffer)

/-- Models `BufferPool::size` (lib.rs:291-293). -/
def BufferPool.size (p : BufferPool) : Nat :=
  p.buffers.length

/-- Models `BufferPool::occupied` accessor (lib.rs:296-298). -/
def BufferPool.occupiedCount (p : BufferPool) : Nat :=
  p.occupied


/-! Theorems settling the claims. -/

/-- C1 (code bug witness at the failing input): on a `DynamicBuffer` with
logical size 2, uploading 4 bytes takes the slow path and performs exactly one
new allocation (`allocCount` goes from 1 to 2), but `upload_by_init` discards
the buffer it creates: the structure returned still holds the old handle
(id 0, capacity 2) and its logical size field is still 2, not 4 — contradicting
both the claim and the function's own documentation ("replaces the old one"). -/
theorem upload_grow_discards_new_buffer :
    DynamicBuffer.upload ⟨⟨0, 2, [0, 0], false, 0, none⟩, none, 2, 0⟩ ⟨1, 1, []⟩
        [1, 2, 3, 4] =
      Except.ok (⟨⟨0, 2, [0, 0], false, 0, none⟩, none, 2, 0⟩, ⟨2, 2, []⟩) := rfl

/-- C2 counterexample: a `try_upload` of 5 bytes on a buffer of logical size 5
fails (strict comparison) and returns deficit `5 - 5 = 0`, which is not a
positive byte deficit as the claim states. -/
theorem try_upload_zero_deficit :
    (DynamicBuffer.try_upload ⟨⟨0, 5, [0, 0, 0, 0, 0], false, 0, none⟩, none, 5, 0⟩
        ⟨1, 1, []⟩ [9, 9, 9, 9, 9]).1 = Except.error 0 := rfl

/-- C2 (amended): `try_upload` succeeds iff `len(data) < size` (strict); on
failure it returns the buffer and device state completely unchanged together
with the nonnegative byte deficit `len(data) - size` (zero when the length
exactly equals the current size). -/
theorem try_upload_succeeds_iff (b : DynamicBuffer) (st : GpuState) (data : List Nat) :
    ((b.try_upload st data).1 = Except.ok () ↔ data.length < b.size) ∧
    (b.size ≤ data.length →
      b.try_upload st data = (Except.error (data.length - b.size), b, st)) := by
  constructor
  · by_cases h : data.length < b.size
    · simp [DynamicBuffer.try_upload, h]
    · simp [DynamicBuffer.try_upload, h]
  · intro h
    have hn : ¬ data.length < b.size := by omega
    simp [DynamicBuffer.try_upload, hn]

/-- C2 witness: buffer of size 5, data of length 5. -/
theorem try_upload_succeeds_iff_witness :
    DynamicBuffer.try_upload ⟨⟨0, 5, [0, 0, 0, 0, 0], false, 0, none⟩, none, 5, 0⟩
        ⟨1, 1, []⟩ [9, 9, 9, 9, 9] =
      (Except.error 0, ⟨⟨0, 5, [0, 0, 0, 0, 0], false, 0, none⟩, none, 5, 0⟩,
       ⟨1, 1, []⟩) :=
  (try_upload_succeeds_iff ⟨⟨0, 5, [0, 0, 0, 0, 0], false, 0, none⟩, none, 5, 0⟩
    ⟨1, 1, []⟩ [9, 9, 9, 9, 9]).2 (by decide)

/-- C3: when `len(data) < size`, `upload` takes the fast path: it queues one
in-place write at offset 0, performs no allocation (`allocCount` unchanged),
keeps the raw handle identical, and sets the logical size field to
`len(data)`. -/
theorem upload_fast_path (b : DynamicBuffer) (st : GpuState) (data : List Nat)
    (h : data.length < b.size) :
    b.upload st data =
      Except.ok ({ b with size := data.length }, st.write_buffer b.raw.id 0 data) ∧
    ({ b with size := data.length } : DynamicBuffer).raw = b.raw ∧
    (st.write_buffer b.raw.id 0 data).allocCount = st.allocCount := by
  refine ⟨?_, rfl, rfl⟩
  unfold DynamicBuffer.upload DynamicBuffer.try_upload
  simp [h]

/-- C3 witness: buffer of size 2, data of length 1. -/
theorem upload_fast_path_witness :
    DynamicBuffer.upload ⟨⟨0, 2, [0, 0], false, 0, none⟩, none, 2, 0⟩ ⟨1, 1, []⟩ [7] =
      Except.ok (⟨⟨0, 2, [0, 0], false, 0, none⟩, none, 1, 0⟩,
        ⟨1, 1, [⟨0, 0, [7]⟩]⟩) :=
  (upload_fast_path ⟨⟨0, 2, [0, 0], false, 0, none⟩, none, 2, 0⟩ ⟨1, 1, []⟩ [7]
    (by decide)).1

/-- C5 (code bug witness at the failing input): a descriptor with contents
`[1]` and explicit size 2 satisfies the documented precondition
(`2 ≥ len(contents) = 1`), yet `create_buffer_init` panics: the code copies
`contents` into the first `unpadded_size` (= explicit size) bytes instead of
the first `len(contents)` bytes, and `copy_from_slice` aborts on the length
mismatch instead of zero-filling `[len(contents), padded_size)`. -/
theorem create_buffer_init_oversize_panics :
    create_buffer_init ⟨0, 0, []⟩ ⟨none, [1], some 2, 0⟩ = Except.error copyMsg := rfl

/-- C6: an explicit size strictly smaller than the content length always fails
the assertion immediately, for every state, label, usage, contents and
explicit size. -/
theorem create_buffer_init_rejects_small_size (st : GpuState) (lbl : Option String)
    (u : Nat) (contents : List Nat) (s : Nat) (h : s < contents.length) :
    create_buffer_init st ⟨lbl, contents, some s, u⟩ = Except.error assertSizeMsg := by
  unfold create_buffer_init
  simp only
  rw [if_neg (by omega)]

/-- C6 witness: contents of length 2, explicit size 1. -/
theorem create_buffer_init_rejects_small_size_witness :
    create_buffer_init ⟨0, 0, []⟩ ⟨none, [1, 2], some 1, 0⟩ =
      Except.error assertSizeMsg :=
  create_buffer_init_rejects_small_size ⟨0, 0, []⟩ none 0 [1, 2] 1 (by decide)

/-- Helper: a failing `try_upload` (data does not fit strictly) leaves buffer
and state unchanged and reports the difference. -/
theorem try_upload_fail (b : DynamicBuffer) (st : GpuState) (data : List Nat)
    (hn : ¬ data.length < b.size) :
    b.try_upload st data = (Except.error (data.length - b.size), b, st) := by
  simp [DynamicBuffer.try_upload, hn]

/-- Helper: a numeral form of `U64_MOD`. -/
theorem U64_MOD_eq : U64_MOD = 18446744073709551616 := by norm_num [U64_MOD]

/-- C10: whenever `len(data)` is a representable length exceeding
`size ^ 2`, `upload` reaches the slow path (`len(data) ≥ size` follows since
`size ≤ size ^ 2` over the naturals), which passes explicit size
`reserve_function size = size ^ 2 < len(data)` to `create_buffer_init`, and
the size assertion fails fatally; in particular every buffer of logical size
at most 1 dies on any upload of at least 2 bytes. -/
theorem upload_reserve_too_small_panics :
    (∀ (b : DynamicBuffer) (st : GpuState) (data : List Nat),
        data.length < U64_MOD → b.size ^ 2 < data.length →
        b.upload st data = Except.error assertSizeMsg) ∧
    (∀ (b : DynamicBuffer) (st : GpuState) (data : List Nat),
        b.size ≤ 1 → 2 ≤ data.length → data.length < U64_MOD →
        b.upload st data = Except.error assertSizeMsg) := by
  have main : ∀ (b : DynamicBuffer) (st : GpuState) (data : List Nat),
      data.length < U64_MOD → b.size ^ 2 < data.length →
      b.upload st data = Except.error assertSizeMsg := by
    intro b st data hlt h
    have hself : b.size ≤ b.size ^ 2 := Nat.le_self_pow (by norm_num) b.size
    have hn : ¬ data.length < b.size := by omega
    have hres : reserve_function b.size = b.size ^ 2 := by
      unfold reserve_function
      exact Nat.mod_eq_of_lt (by omega)
    unfold DynamicBuffer.upload
    rw [try_upload_fail b st data hn]
    show b.upload_by_init st data = Except.error assertSizeMsg
    unfold DynamicBuffer.upload_by_init
    simp only [DynamicBuffer.RESERVE, create_buffer_init, hres]
    rw [if_neg (by omega)]
  refine ⟨main, fun b st data h1 h2 h3 => main b st data h3 ?_⟩
  have : b.size ^ 2 ≤ 1 ^ 2 := Nat.pow_le_pow_left h1 2
  omega

/-- C10 witness: logical size 1, two bytes of data. -/
theorem upload_reserve_too_small_panics_witness :
    DynamicBuffer.upload ⟨⟨0, 1, [0], false, 0, none⟩, none, 1, 0⟩ ⟨1, 1, []⟩ [1, 2] =
      Except.error assertSizeMsg :=
  upload_reserve_too_small_panics.1 ⟨⟨0, 1, [0], false, 0, none⟩, none, 1, 0⟩ ⟨1, 1, []⟩
    [1, 2] (by rw [U64_MOD_eq]; norm_num) (by norm_num)


/-- Helper: with no explicit size and a representable content length,
`create_buffer_init` succeeds, returning a freshly allocated, unmapped buffer
whose capacity is the padded size (at least the content length) and whose
bytes are the contents followed by zero padding. -/
theorem create_buffer_init_none_ok (st : GpuState) (lbl : Option String) (u : Nat)
    (contents : List Nat) (hlt : contents.length + 3 < U64_MOD) :
    ∃ (buf : Buffer) (st2 : GpuState),
      create_buffer_init st ⟨lbl, contents, none, u⟩ = Except.ok (buf, st2) ∧
      buf.id = st.nextId ∧ contents.length ≤ buf.size ∧ buf.mapped = false ∧
      buf.data = contents ++ List.replicate (buf.size - contents.length) 0 ∧
      st2 = { st with nextId := st.nextId + 1, allocCount := st.allocCount + 1 } := by
    have ht : (contents.length + 3) % U64_MOD = contents.length + 3 :=
      Nat.mod_eq_of_lt hlt
    simp only [create_buffer_init, buildInitBuffer, GpuState.create_buffer,
      COPY_BUFFER_ALIGNMENT, ht]
    rw [if_neg (by omega), if_neg (by simp)]
    refine ⟨_, _, rfl, rfl, ?_, rfl, rfl, rfl⟩
    dsimp only
    omega

/-- C4: with the alignment unit `A = COPY_BUFFER_ALIGNMENT = 4`, a content of
length `L` with `0 < L < A` and no explicit size yields a buffer of capacity
exactly `A` whose first `L` bytes are the contents and whose remaining
`A - L` bytes are zero (and one fresh allocation is performed). -/
theorem create_buffer_init_small_aligned (st : GpuState) (lbl : Option String) (u : Nat)
    (contents : List Nat) (h1 : 0 < contents.length)
    (h2 : contents.length < COPY_BUFFER_ALIGNMENT) :
    create_buffer_init st ⟨lbl, contents, none, u⟩ =
      Except.ok
        (⟨st.nextId, COPY_BUFFER_ALIGNMENT,
            contents ++ List.replicate (COPY_BUFFER_ALIGNMENT - contents.length) 0,
            false, u, lbl⟩,
         { st with nextId := st.nextId + 1, allocCount := st.allocCount + 1 }) := by
  have h4 : contents.length < 4 := h2
  have ht : (contents.length + 3) % U64_MOD = contents.length + 3 :=
    Nat.mod_eq_of_lt (by rw [U64_MOD_eq]; omega)
  simp only [create_buffer_init, buildInitBuffer, GpuState.create_buffer,
    COPY_BUFFER_ALIGNMENT, ht]
  have hmax : max (contents.length + 3 - (contents.length + 3) % 4) 4 = 4 := by omega
  rw [hmax, if_neg (by omega), if_neg (by simp)]

/-- C4 witness: 3-byte content `[1, 2, 3]` becomes a 4-byte buffer
`[1, 2, 3, 0]`. -/
theorem create_buffer_init_small_aligned_witness :
    create_buffer_init ⟨0, 0, []⟩ ⟨none, [1, 2, 3], none, 0⟩ =
      Except.ok (⟨0, 4, [1, 2, 3, 0], false, 0, none⟩, ⟨1, 1, []⟩) :=
  create_buffer_init_small_aligned ⟨0, 0, []⟩ none 0 [1, 2, 3] (by decide) (by decide)

/-- C7: `resize_write_buffer` with fitting contents queues one in-place write
at offset 0 and returns the identical `SizedBuffer` (capacity not shrunk) with
no allocation; with contents larger than the recorded size it allocates
exactly one fresh buffer (id `st.nextId`, sufficient capacity, contents
written and zero-padded, created with no explicit size) and returns a new
`SizedBuffer` whose recorded size is `len(contents)`. -/
theorem resize_write_buffer_cases (st : GpuState) (buffer : SizedBuffer)
    (d : BufferResizeWriteDescriptor) :
    (d.contents.length ≤ buffer.size →
      resize_write_buffer st buffer d =
        Except.ok (buffer, st.write_buffer buffer.buffer.id 0 d.contents) ∧
      (st.write_buffer buffer.buffer.id 0 d.contents).allocCount = st.allocCount) ∧
    (buffer.size < d.contents.length → d.contents.length + 3 < U64_MOD →
      ∃ (newBuf : Buffer) (st2 : GpuState),
        resize_write_buffer st buffer d =
          Except.ok (SizedBuffer.new d.contents.length newBuf, st2) ∧
        newBuf.id = st.nextId ∧ d.contents.length ≤ newBuf.size ∧
        newBuf.data = d.contents ++ List.replicate (newBuf.size - d.contents.length) 0 ∧
        st2.allocCount = st.allocCount + 1 ∧ st2.writes = st.writes) := by
  constructor
  · intro h
    exact ⟨by simp [resize_write_buffer, h], rfl⟩
  · intro h hlt
    obtain ⟨buf, st2, heq, hid, hsz, hmap, hdata, hst⟩ :=
      create_buffer_init_none_ok st d.label d.usage d.contents hlt
    have hn : ¬ d.contents.length ≤ buffer.size := by omega
    refine ⟨buf, st2, ?_, hid, hsz, hdata, by rw [hst], by rw [hst]⟩
    simp only [resize_write_buffer, hn, if_false, heq]

/-- C7 witness: a 1-byte write into a slot of recorded size 2 is an in-place
queued write returning the same slot. -/
theorem resize_write_buffer_cases_witness :
    resize_write_buffer ⟨1, 1, []⟩ ⟨2, ⟨0, 2, [0, 0], false, 0, none⟩⟩ ⟨none, [5], 0⟩ =
      Except.ok (⟨2, ⟨0, 2, [0, 0], false, 0, none⟩⟩, ⟨1, 1, [⟨0, 0, [5]⟩]⟩) :=
  ((resize_write_buffer_cases ⟨1, 1, []⟩ ⟨2, ⟨0, 2, [0, 0], false, 0, none⟩⟩
    ⟨none, [5], 0⟩).1 (by decide)).1


/-- Scenario state: the slot created by the first 1-byte upload `A = [10]`. -/
def poolBufA : Buffer := ⟨0, 4, [10, 0, 0, 0], false, 0, none⟩

/-- Scenario state: slot 0 after uploading `A`. -/
def poolSlotA : SizedBuffer := ⟨1, poolBufA⟩

/-- Scenario state: the slot created by the second 1-byte upload `B = [20]`. -/
def poolBufB : Buffer := ⟨1, 4, [20, 0, 0, 0], false, 0, none⟩

/-- Scenario state: slot 1 after uploading `B`. -/
def poolSlotB : SizedBuffer := ⟨1, poolBufB⟩

/-- Scenario state: the empty pool. -/
def pool0 : BufferPool := BufferPool.new ⟨none, 0⟩

/-- Scenario state: the initial device state. -/
def gpuSt0 : GpuState := ⟨0, 0, []⟩

/-- Scenario state: pool after uploading `A`. -/
def pool1 : BufferPool := ⟨[poolSlotA], 1, none, 0⟩

/-- Scenario state: device after one allocation. -/
def gpuSt1 : GpuState := ⟨1, 1, []⟩

/-- Scenario state: pool after uploading `A` then `B`. -/
def pool2 : BufferPool := ⟨[poolSlotA, poolSlotB], 2, none, 0⟩

/-- Scenario state: device after two allocations. -/
def gpuSt2 : GpuState := ⟨2, 2, []⟩

/-- Scenario state: pool after `clear`. -/
def pool3 : BufferPool := ⟨[poolSlotA, poolSlotB], 0, none, 0⟩

/-- Scenario state: pool after uploading `C = [30]` into the recycled slot 0. -/
def pool4 : BufferPool := ⟨[poolSlotA, poolSlotB], 1, none, 0⟩

/-- Scenario state: device after the recycled upload: still two allocations,
one queued in-place write of `[30]` into buffer 0 at offset 0. -/
def gpuSt4 : GpuState := ⟨2, 2, [⟨0, 0, [30]⟩]⟩

/-- C8: on an initially empty pool, `upload A` returns 1 creating slot 0,
`upload B` returns 2 creating slot 1, `clear` resets `occupied` to 0, the
next `upload C` returns 1 reusing slot 0 with no new allocation (the
allocation count is unchanged and the write is queued in place); afterwards
`get 0` is the reused handle of slot 0 and `get 1` is `none`; in general
`get i` returns `none` for every slot at or beyond `occupied`. -/
theorem bufferPool_sequential_reuse :
    pool0.upload gpuSt0 [10] = Except.ok (1, pool1, gpuSt1) ∧
    pool1.upload gpuSt1 [20] = Except.ok (2, pool2, gpuSt2) ∧
    pool2.clear = pool3 ∧
    pool3.upload gpuSt2 [30] = Except.ok (1, pool4, gpuSt4) ∧
    gpuSt4.allocCount = gpuSt2.allocCount ∧
    pool4.get 0 = some poolBufA ∧
    pool4.get 1 = none ∧
    (∀ (p : BufferPool) (i : Nat), p.occupied ≤ i → p.get i = none) := by
  refine ⟨rfl, rfl, rfl, rfl, rfl, rfl, rfl, ?_⟩
  intro p i h
  unfold BufferPool.get
  rw [if_neg (by omega)]

/-- C8 witness: on the cleared pool every index is vacant, in particular 0. -/
theorem bufferPool_sequential_reuse_witness : pool3.get 0 = none :=
  bufferPool_sequential_reuse.2.2.2.2.2.2.2 pool3 0 (by decide)

/-- C9 counterexample: `new_init` on 3-byte contents records logical size 3,
while the owned handle's backing capacity is the padded size 4; the logical
size field does not equal the capacity of the currently owned handle. -/
theorem new_init_size_ne_capacity :
    (DynamicBuffer.new_init ⟨0, 0, []⟩ ⟨none, [1, 2, 3], none, 0⟩).toOption.map
        (fun r => r.1.size) ≠
      (DynamicBuffer.new_init ⟨0, 0, []⟩ ⟨none, [1, 2, 3], none, 0⟩).toOption.map
        (fun r => r.1.raw.size) := by decide

/-- Helper: whenever `buildInitBuffer` succeeds, the unpadded size is exactly
the content length and is at most the returned capacity. -/
theorem buildInitBuffer_ok_le (st st2 : GpuState) (d : BufferInitDescriptor) (u : Nat)
    (buf : Buffer) (h : buildInitBuffer st d u = Except.ok (buf, st2)) :
    u = d.contents.length ∧ u ≤ buf.size := by
  simp only [buildInitBuffer, GpuState.create_buffer] at h
  split at h
  · exact Except.noConfusion h
  · split at h
    · exact Except.noConfusion h
    · rename_i hpad hne
      injection h with h2
      injection h2 with hb hs
      subst hb
      exact ⟨not_ne_iff.mp hne, Nat.le_of_not_lt hpad⟩

/-- Helper: whenever `create_buffer_init` succeeds, the returned capacity is
at least the content length. -/
theorem create_buffer_init_ok_le (st st2 : GpuState) (d : BufferInitDescriptor)
    (buf : Buffer) (h : create_buffer_init st d = Except.ok (buf, st2)) :
    d.contents.length ≤ buf.size := by
  cases hds : d.size with
  | none =>
      simp only [create_buffer_init, hds] at h
      exact (buildInitBuffer_ok_le st st2 d d.contents.length buf h).2
  | some s =>
      simp only [create_buffer_init, hds] at h
      by_cases hle : d.contents.length ≤ s
      · rw [if_pos hle] at h
        have h2 := buildInitBuffer_ok_le st st2 d s buf h
        omega
      · rw [if_neg hle] at h
        exact Except.noConfusion h

/-- Helper: a successful `upload_by_init` returns the structure unchanged (the
freshly created buffer is discarded). -/
theorem upload_by_init_ok_unchanged (b b2 : DynamicBuffer) (st st2 : GpuState)
    (data : List Nat) (hok : b.upload_by_init st data = Except.ok (b2, st2)) :
    b2 = b := by
  unfold DynamicBuffer.upload_by_init at hok
  split at hok
  · exact Except.noConfusion hok
  · injection hok with h2
    injection h2 with hb hs
    exact hb.symm

/-- Helper: the two possible outcomes of `try_upload`. -/
theorem try_upload_cases (b : DynamicBuffer) (st : GpuState) (data : List Nat) :
    b.try_upload st data =
        (Except.ok (), { b with size := data.length }, st.write_buffer b.raw.id 0 data) ∧
      data.length < b.size ∨
    b.try_upload st data = (Except.error (data.length - b.size), b, st) ∧
      ¬ data.length < b.size := by
  by_cases h : data.length < b.size
  · exact Or.inl ⟨by simp [DynamicBuffer.try_upload, h], h⟩
  · exact Or.inr ⟨try_upload_fail b st data h, h⟩

/-- C9 (amended): after every `DynamicBuffer` operation the logical size field
is at most (not necessarily equal to) the capacity backing the currently owned
handle: `new` establishes it with equality, `new_init` records the content
length below the padded capacity, and `try_upload`, `upload_by_init` and
`upload` preserve it. -/
theorem dynamicBuffer_size_le_capacity :
    (∀ (st : GpuState) (d : BufferDescriptor),
        ((DynamicBuffer.new st d).1).size ≤ ((DynamicBuffer.new st d).1).raw.size) ∧
    (∀ (st st2 : GpuState) (d : BufferInitDescriptor) (b : DynamicBuffer),
        DynamicBuffer.new_init st d = Except.ok (b, st2) → b.size ≤ b.raw.size) ∧
    (∀ (b : DynamicBuffer) (st : GpuState) (data : List Nat),
        b.size ≤ b.raw.size →
        ((b.try_upload st data).2.1).size ≤ ((b.try_upload st data).2.1).raw.size) ∧
    (∀ (b b2 : DynamicBuffer) (st st2 : GpuState) (data : List Nat),
        b.size ≤ b.raw.size → b.upload_by_init st data = Except.ok (b2, st2) →
        b2.size ≤ b2.raw.size) ∧
    (∀ (b b2 : DynamicBuffer) (st st2 : GpuState) (data : List Nat),
        b.size ≤ b.raw.size → b.upload st data = Except.ok (b2, st2) →
        b2.size ≤ b2.raw.size) := by
  refine ⟨fun st d => Nat.le_refl _, ?_, ?_, ?_, ?_⟩
  · intro st st2 d b h
    unfold DynamicBuffer.new_init at h
    split at h
    · exact Except.noConfusion h
    · rename_i raw st3 hc
      injection h with h2
      injection h2 with hb hs
      subst hb
      exact create_buffer_init_ok_le st st3 d raw hc
  · intro b st data h
    rcases try_upload_cases b st data with ⟨heq, hlt⟩ | ⟨heq, _⟩
    · rw [heq]
      dsimp only
      omega
    · rw [heq]
      exact h
  · intro b b2 st st2 data h hok
    rw [upload_by_init_ok_unchanged b b2 st st2 data hok]
    exact h
  · intro b b2 st st2 data h hok
    unfold DynamicBuffer.upload at hok
    rcases try_upload_cases b st data with ⟨heq, hlt⟩ | ⟨heq, _⟩
    · rw [heq] at hok
      injection hok with h2
      injection h2 with hb hs
      subst hb
      dsimp only
      omega
    · rw [heq] at hok
      rw [upload_by_init_ok_unchanged b b2 st st2 data hok]
      exact h

/-- C9 witness: `try_upload` on a buffer whose size field equals its capacity
keeps the size field bounded by the capacity. -/
theorem dynamicBuffer_size_le_capacity_witness :
    ((DynamicBuffer.try_upload ⟨⟨0, 4, [0, 0, 0, 0], false, 0, none⟩, none, 4, 0⟩
        ⟨1, 1, []⟩ [7]).2.1).size ≤
      ((DynamicBuffer.try_upload ⟨⟨0, 4, [0, 0, 0, 0], false, 0, none⟩, none, 4, 0⟩
        ⟨1, 1, []⟩ [7]).2.1).raw.size :=
  dynamicBuffer_size_le_capacity.2.2.1 ⟨⟨0, 4, [0, 0, 0, 0], false, 0, none⟩, none, 4, 0⟩
    ⟨1, 1, []⟩ [7] (by decide)

end WgpuUtil
